import Mathlib

/-!
Verification development for the FyersNifty50Ops quote-polling and
OAuth-token-acquisition client.

The repository's core (src/services/fyers.ts, src/utils/crypto.ts,
src/types.ts) is shallowly embedded below:

* machine numbers are modelled as `ℚ` (the arithmetic the code performs is
  exact on the values the claims are about) and 32-bit words as `ℕ` with
  explicit `% 2 ^ 32`;
* the browser `fetch` effect is modelled by injecting, per call, the list of
  outcomes of the relay attempts in relay-list order: each entry is either a
  thrown transport error (its message string) or an HTTP `Response`;
* thrown `Error` values are modelled by their message strings, carried in
  `Except String`;
* `Math.random()` draws are injected as a stream `ℕ → ℚ` of values in [0,1),
  and `Date.now()` as an explicit `now : ℕ` parameter.
-/

/-! ## SHA-256 (platform primitive)

`src/utils/crypto.ts` delegates the digest to the Web Crypto API
(`crypto.subtle.digest('SHA-256', …)`), a platform primitive that is not part
of the repository's sources.  The functions in this section model it: an
executable FIPS 180-4 SHA-256 over byte lists, 32-bit words represented as
`ℕ` reduced modulo `2 ^ 32`.  It is validated below against the standard
test vector for "abc" (`sha256_testvector_abc`). -/

/-- Reduce a natural number to a 32-bit word. -/
def w32 (n : ℕ) : ℕ := n % 4294967296

/-- Right rotation of a 32-bit word (valid for `x < 2 ^ 32`). -/
def rotr32 (n x : ℕ) : ℕ := (x / 2 ^ n + x * 2 ^ (32 - n)) % 4294967296

/-- Logical right shift of a word. -/
def shr32 (n x : ℕ) : ℕ := x / 2 ^ n

/-- Bitwise xor on the low `fuel` bits, by binary recursion. -/
def xorFuel : ℕ → ℕ → ℕ → ℕ
  | 0, _, _ => 0
  | f + 1, a, b => (a % 2 + b % 2) % 2 + 2 * xorFuel f (a / 2) (b / 2)

/-- 32-bit xor. -/
def xor32 (a b : ℕ) : ℕ := xorFuel 32 a b

/-- The SHA-256 choice function, bit by bit on the low `fuel` bits. -/
def chFuel : ℕ → ℕ → ℕ → ℕ → ℕ
  | 0, _, _, _ => 0
  | f + 1, e, g, h => (if e % 2 = 1 then g % 2 else h % 2) + 2 * chFuel f (e / 2) (g / 2) (h / 2)

/-- 32-bit choice function. -/
def ch32 (e f g : ℕ) : ℕ := chFuel 32 e f g

/-- The SHA-256 majority function, bit by bit on the low `fuel` bits. -/
def majFuel : ℕ → ℕ → ℕ → ℕ → ℕ
  | 0, _, _, _ => 0
  | f + 1, a, b, c => (if a % 2 + b % 2 + c % 2 ≥ 2 then 1 else 0) + 2 * majFuel f (a / 2) (b / 2) (c / 2)

/-- 32-bit majority function. -/
def maj32 (a b c : ℕ) : ℕ := majFuel 32 a b c

/-- Big sigma 0. -/
def bsig0 (x : ℕ) : ℕ := xor32 (xor32 (rotr32 2 x) (rotr32 13 x)) (rotr32 22 x)

/-- Big sigma 1. -/
def bsig1 (x : ℕ) : ℕ := xor32 (xor32 (rotr32 6 x) (rotr32 11 x)) (rotr32 25 x)

/-- Small sigma 0. -/
def ssig0 (x : ℕ) : ℕ := xor32 (xor32 (rotr32 7 x) (rotr32 18 x)) (shr32 3 x)

/-- Small sigma 1. -/
def ssig1 (x : ℕ) : ℕ := xor32 (xor32 (rotr32 17 x) (rotr32 19 x)) (shr32 10 x)

/-- The 64 SHA-256 round constants. -/
def sha256K : List ℕ :=
  [1116352408, 1899447441, 3049323471, 3921009573, 961987163,
   1508970993, 2453635748, 2870763221, 3624381080, 310598401,
   607225278, 1426881987, 1925078388, 2162078206, 2614888103,
   3248222580, 3835390401, 4022224774, 264347078, 604807628,
   770255983, 1249150122, 1555081692, 1996064986, 2554220882,
   2821834349, 2952996808, 3210313671, 3336571891, 3584528711,
   113926993, 338241895, 666307205, 773529912, 1294757372,
   1396182291, 1695183700, 1986661051, 2177026350, 2456956037,
   2730485921, 2820302411, 3259730800, 3345764771, 3516065817,
   3600352804, 4094571909, 275423344, 430227734, 506948616,
   659060556, 883997877, 958139571, 1322822218, 1537002063,
   1747873779, 1955562222, 2024104815, 2227730452, 2361852424,
   2428436474, 2756734187, 3204031479, 3329325298]

/-- The eight 32-bit working variables of the SHA-256 compression function. -/
structure H8 where
  a : ℕ
  b : ℕ
  c : ℕ
  d : ℕ
  e : ℕ
  f : ℕ
  g : ℕ
  h : ℕ

/-- The SHA-256 initial hash value. -/
def initH : H8 :=
  ⟨1779033703, 3144134277, 1013904242, 2773480762, 1359893119, 2600822924, 528734635, 1541459225⟩

/-- Big-endian byte serialisation of `n` on `k` bytes. -/
def bytesBE (k n : ℕ) : List ℕ := (List.range k).map fun i => n / 256 ^ (k - 1 - i) % 256

/-- Group a byte list into big-endian 32-bit words (four bytes per word). -/
def wordsOfBytes : List ℕ → List ℕ
  | b0 :: b1 :: b2 :: b3 :: rest => (((b0 * 256 + b1) * 256 + b2) * 256 + b3) :: wordsOfBytes rest
  | _ => []

/-- One step of the SHA-256 message-schedule extension. -/
def extendStep (w : List ℕ) : List ℕ :=
  w ++ [w32 (ssig1 (w.getD (w.length - 2) 0) + w.getD (w.length - 7) 0 +
             ssig0 (w.getD (w.length - 15) 0) + w.getD (w.length - 16) 0)]

/-- Extend the 16 chunk words to the 64-word message schedule. -/
def schedule (ws : List ℕ) : List ℕ := extendStep^[48] ws

/-- One round of the SHA-256 compression function. -/
def roundStep (st : H8) (k w : ℕ) : H8 :=
  let t1 := w32 (st.h + bsig1 st.e + ch32 st.e st.f st.g + k + w)
  let t2 := w32 (bsig0 st.a + maj32 st.a st.b st.c)
  ⟨w32 (t1 + t2), st.a, st.b, st.c, w32 (st.d + t1), st.e, st.f, st.g⟩

/-- Compress one 64-byte chunk into the running hash value. -/
def processChunk (h : H8) (chunk : List ℕ) : H8 :=
  let ws := schedule (wordsOfBytes chunk)
  let st := (sha256K.zip ws).foldl (fun s kw => roundStep s kw.1 kw.2) h
  ⟨w32 (h.a + st.a), w32 (h.b + st.b), w32 (h.c + st.c), w32 (h.d + st.d),
   w32 (h.e + st.e), w32 (h.f + st.f), w32 (h.g + st.g), w32 (h.h + st.h)⟩

/-- The SHA-256 padding for a message of `L` bytes: a 0x80 byte, zeros to 56
mod 64, then the bit length on eight big-endian bytes. -/
def shaPad (L : ℕ) : List ℕ :=
  0x80 :: List.replicate ((119 - L % 64) % 64) 0 ++ bytesBE 8 (8 * L)

/-- Split into 64-byte chunks (fuel-based so that the kernel can reduce it). -/
def chunksGo : ℕ → List ℕ → List (List ℕ)
  | 0, _ => []
  | _, [] => []
  | fuel + 1, l => l.take 64 :: chunksGo fuel (l.drop 64)

/-- Split a padded message into its 64-byte chunks. -/
def chunks64 (l : List ℕ) : List (List ℕ) := chunksGo l.length l

/-- The SHA-256 digest of a byte list, as a 32-byte list. -/
def sha256Bytes (msg : List ℕ) : List ℕ :=
  let padded := msg ++ shaPad msg.length
  let hh := (chunks64 padded).foldl processChunk initH
  [hh.a, hh.b, hh.c, hh.d, hh.e, hh.f, hh.g, hh.h].flatMap (bytesBE 4)

/-- The sixteen lowercase hexadecimal digit characters. -/
def hexDigitChars : List Char := "0123456789abcdef".toList

/-- The lowercase hexadecimal digit for `n < 16`. -/
def hexChar (n : ℕ) : Char := hexDigitChars.getD n '0'

/-- Two lowercase hex characters for one byte, zero-padded: this is
`b.toString(16).padStart(2, '0')` of the source for `b < 256`. -/
def byteToHex (b : ℕ) : List Char := [hexChar (b / 16 % 16), hexChar (b % 16)]

/-- Hex-encode a byte list into a string. -/
def bytesToHexString (bs : List ℕ) : String := String.mk (bs.flatMap byteToHex)

/-- UTF-8 encoding of one character (the `TextEncoder().encode` primitive). -/
def charUtf8 (c : Char) : List ℕ :=
  let n := c.toNat
  if n < 128 then [n]
  else if n < 2048 then [192 + n / 64, 128 + n % 64]
  else if n < 65536 then [224 + n / 4096, 128 + n / 64 % 64, 128 + n % 64]
  else [240 + n / 262144, 128 + n / 4096 % 64, 128 + n / 64 % 64, 128 + n % 64]

/-- UTF-8 encoding of a string as a byte list. -/
def utf8Bytes (s : String) : List ℕ := s.data.flatMap charUtf8

/-- Lowercase-hex SHA-256 digest of the UTF-8 encoding of a string. -/
def sha256Hex (s : String) : String := bytesToHexString (sha256Bytes (utf8Bytes s))

/-! ## src/utils/crypto.ts -/

/-- `generateAppIdHash` of src/utils/crypto.ts: the hex SHA-256 digest of the
UTF-8 encoding of the string `appId ++ ":" ++ secretId`. -/
def generateAppIdHash (appId secretId : String) : String := sha256Hex (appId ++ ":" ++ secretId)

/-! ## src/types.ts -/

/-- `FyersConfig` of src/types.ts. -/
structure FyersConfig where
  appId : String
  accessToken : String
  isDemoMode : Bool

/-- The `v` payload of one quote entry.  The TypeScript declaration types the
fields as `number`, but the mapping code guards each with `|| 0`, so at
runtime a field may be absent: absent is modelled as `none`. -/
structure QuoteValues where
  ch : Option ℚ
  chp : Option ℚ
  lp : Option ℚ
  o : Option ℚ
  h : Option ℚ
  l : Option ℚ
  v : Option ℚ
  ask : Option ℚ
  bid : Option ℚ
deriving DecidableEq

/-- `FyersQuoteData` of src/types.ts: one raw provider quote entry. -/
structure FyersQuoteData where
  n : String
  v : QuoteValues
deriving DecidableEq

/-- `FyersResponse` of src/types.ts: the parsed quotes JSON envelope.
`d` is optional (`!data.d` is checked before use) and `message` optional. -/
structure FyersResponse where
  s : String
  d : Option (List FyersQuoteData)
  code : Option ℤ
  message : Option String
deriving DecidableEq

/-- `Stock` of src/types.ts, the canonical normalized quote record.  The
source field `open` is called `openPrice` here because `open` is a Lean
keyword. -/
structure Stock where
  symbol : String
  name : String
  ltp : ℚ
  change : ℚ
  changePercent : ℚ
  openPrice : ℚ
  high : ℚ
  low : ℚ
  volume : ℚ
  lastUpdated : ℕ
deriving DecidableEq

/-! ## src/constants.ts (not under src/) -/

/-- One entry of the Instrument Reference table. -/
structure NiftyItem where
  symbol : String
  name : String
deriving DecidableEq

/-- Modelled from the spec: the static Instrument Reference table
(`NIFTY_50_SYMBOLS` of src/constants.ts, whose source file is not in the
repository snapshot) — a read-only table of 50 entries of symbol and
friendly name, fixed at build time, one per Nifty-50 instrument, with
pairwise-distinct symbols. -/
def NIFTY_50_SYMBOLS : List NiftyItem :=
  [⟨"NSE:RELIANCE-EQ", "Reliance Industries"⟩,
   ⟨"NSE:TCS-EQ", "Tata Consultancy Services"⟩,
   ⟨"NSE:HDFCBANK-EQ", "HDFC Bank"⟩,
   ⟨"NSE:ICICIBANK-EQ", "ICICI Bank"⟩,
   ⟨"NSE:HINDUNILVR-EQ", "Hindustan Unilever"⟩,
   ⟨"NSE:INFY-EQ", "Infosys"⟩,
   ⟨"NSE:ITC-EQ", "ITC"⟩,
   ⟨"NSE:SBIN-EQ", "State Bank of India"⟩,
   ⟨"NSE:BHARTIARTL-EQ", "Bharti Airtel"⟩,
   ⟨"NSE:KOTAKBANK-EQ", "Kotak Mahindra Bank"⟩,
   ⟨"NSE:LT-EQ", "Larsen & Toubro"⟩,
   ⟨"NSE:AXISBANK-EQ", "Axis Bank"⟩,
   ⟨"NSE:ASIANPAINT-EQ", "Asian Paints"⟩,
   ⟨"NSE:MARUTI-EQ", "Maruti Suzuki"⟩,
   ⟨"NSE:SUNPHARMA-EQ", "Sun Pharmaceutical"⟩,
   ⟨"NSE:TITAN-EQ", "Titan Company"⟩,
   ⟨"NSE:ULTRACEMCO-EQ", "UltraTech Cement"⟩,
   ⟨"NSE:BAJFINANCE-EQ", "Bajaj Finance"⟩,
   ⟨"NSE:NESTLEIND-EQ", "Nestle India"⟩,
   ⟨"NSE:WIPRO-EQ", "Wipro"⟩,
   ⟨"NSE:M&M-EQ", "Mahindra & Mahindra"⟩,
   ⟨"NSE:NTPC-EQ", "NTPC"⟩,
   ⟨"NSE:HCLTECH-EQ", "HCL Technologies"⟩,
   ⟨"NSE:POWERGRID-EQ", "Power Grid Corporation"⟩,
   ⟨"NSE:TATAMOTORS-EQ", "Tata Motors"⟩,
   ⟨"NSE:TATASTEEL-EQ", "Tata Steel"⟩,
   ⟨"NSE:BAJAJFINSV-EQ", "Bajaj Finserv"⟩,
   ⟨"NSE:ONGC-EQ", "Oil & Natural Gas Corporation"⟩,
   ⟨"NSE:COALINDIA-EQ", "Coal India"⟩,
   ⟨"NSE:ADANIENT-EQ", "Adani Enterprises"⟩,
   ⟨"NSE:ADANIPORTS-EQ", "Adani Ports"⟩,
   ⟨"NSE:GRASIM-EQ", "Grasim Industries"⟩,
   ⟨"NSE:HINDALCO-EQ", "Hindalco Industries"⟩,
   ⟨"NSE:DRREDDY-EQ", "Dr Reddys Laboratories"⟩,
   ⟨"NSE:JSWSTEEL-EQ", "JSW Steel"⟩,
   ⟨"NSE:CIPLA-EQ", "Cipla"⟩,
   ⟨"NSE:TECHM-EQ", "Tech Mahindra"⟩,
   ⟨"NSE:BRITANNIA-EQ", "Britannia Industries"⟩,
   ⟨"NSE:EICHERMOT-EQ", "Eicher Motors"⟩,
   ⟨"NSE:INDUSINDBK-EQ", "IndusInd Bank"⟩,
   ⟨"NSE:APOLLOHOSP-EQ", "Apollo Hospitals"⟩,
   ⟨"NSE:DIVISLAB-EQ", "Divis Laboratories"⟩,
   ⟨"NSE:TATACONSUM-EQ", "Tata Consumer Products"⟩,
   ⟨"NSE:BAJAJ-AUTO-EQ", "Bajaj Auto"⟩,
   ⟨"NSE:HEROMOTOCO-EQ", "Hero MotoCorp"⟩,
   ⟨"NSE:UPL-EQ", "UPL"⟩,
   ⟨"NSE:BPCL-EQ", "Bharat Petroleum"⟩,
   ⟨"NSE:SBILIFE-EQ", "SBI Life Insurance"⟩,
   ⟨"NSE:HDFCLIFE-EQ", "HDFC Life Insurance"⟩,
   ⟨"NSE:LTIM-EQ", "LTIMindtree"⟩]

/-! ## src/services/fyers.ts -/

/-- One relay of the CORS proxy list. -/
structure ProxyEntry where
  base : String
  needsEncoding : Bool

/-- `PROXY_LIST` of src/services/fyers.ts: the static ordered relay list. -/
def PROXY_LIST : List ProxyEntry :=
  [⟨"https://corsproxy.io/?", true⟩,
   ⟨"https://thingproxy.freeboard.io/fetch/", false⟩,
   ⟨"https://api.codetabs.com/v1/proxy?quest=", true⟩]

/-- An HTTP response as seen by the code after `fetch` resolves: the status
line plus the already-parsed JSON body of type `β`. -/
structure Response (β : Type) where
  status : ℕ
  statusText : String
  body : β

/-- `response.ok` of the fetch API: status in the range 200–299. -/
def respOk {β : Type} (r : Response β) : Bool :=
  decide (200 ≤ r.status) && decide (r.status ≤ 299)

/-- The loop of `fetchWithFailover`, threading `lastError`.  Each list entry
is the outcome of the `fetch` through one relay, in relay-list order: a
thrown transport error's message, or a returned `Response`. -/
def failoverGo {β : Type} : Option String → List (Except String (Response β)) → Except String (Response β)
  | last, [] => Except.error (last.getD "Unable to connect to any CORS proxy.")
  | _, Except.ok r :: _ => Except.ok r
  | _, Except.error e :: rest => failoverGo (some e) rest

/-- `fetchWithFailover` of src/services/fyers.ts: try relays sequentially,
return the first `Response`, skip thrown relays, and after exhausting the
list throw the last error if any, else the generic message. -/
def fetchWithFailover {β : Type} (outcomes : List (Except String (Response β))) : Except String (Response β) :=
  failoverGo none outcomes

/-- JavaScript `a || b` for an optional string `a` (absent and the empty
string are falsy). -/
def jsOrString (a : Option String) (b : String) : String :=
  match a with
  | none => b
  | some s => if s = "" then b else s

/-- JavaScript `x || 0` for an optional number `x`: absent maps to 0 (a
present 0 is falsy in JavaScript but `0 || 0` is 0 as well, and `ℚ` has no
NaN). -/
def jsOrNum (a : Option ℚ) : ℚ := a.getD 0

/-- JavaScript `parseFloat(x.toFixed(2))`: round to two decimal places. -/
def jsToFixed2 (q : ℚ) : ℚ := ((round (q * 100) : ℤ) : ℚ) / 100

/-- One record of `generateDemoData`, built from the three `Math.random()`
draws of index `3 * i`, `3 * i + 1`, `3 * i + 2`. -/
def demoStock (dr : ℕ → ℚ) (now : ℕ) (i : ℕ) (item : NiftyItem) : Stock :=
  let basePrice := dr (3 * i) * 3000 + 100
  let change := (dr (3 * i + 1) - 1 / 2) * 50
  let changePercent := change / basePrice * 100
  { symbol := item.symbol
    name := item.name
    ltp := jsToFixed2 (basePrice + change)
    change := jsToFixed2 change
    changePercent := jsToFixed2 changePercent
    openPrice := jsToFixed2 basePrice
    high := jsToFixed2 (basePrice + |change| + 10)
    low := jsToFixed2 (basePrice - |change| - 10)
    volume := ((⌊dr (3 * i + 2) * 1000000⌋ : ℤ) : ℚ)
    lastUpdated := now }

/-- The map of `generateDemoData` over the instrument table, threading the
index of the next `Math.random()` draw. -/
def demoGo (dr : ℕ → ℚ) (now : ℕ) : ℕ → List NiftyItem → List Stock
  | _, [] => []
  | i, item :: rest => demoStock dr now i item :: demoGo dr now (i + 1) rest

/-- `generateDemoData` of src/services/fyers.ts: one randomized record per
Instrument Reference entry. -/
def generateDemoData (dr : ℕ → ℚ) (now : ℕ) : List Stock :=
  demoGo dr now 0 NIFTY_50_SYMBOLS

/-- The per-entry mapping of the live-mode `fetchQuotes`: normalize one raw
provider entry into a `Stock`, looking up the friendly name (`?.name ||
quote.n`) and defaulting each missing numeric field to 0. -/
def mapQuote (now : ℕ) (quote : FyersQuoteData) : Stock :=
  { symbol := quote.n
    name := jsOrString ((NIFTY_50_SYMBOLS.find? fun s => s.symbol == quote.n).map NiftyItem.name) quote.n
    ltp := jsOrNum quote.v.lp
    change := jsOrNum quote.v.ch
    changePercent := jsOrNum quote.v.chp
    openPrice := jsOrNum quote.v.o
    high := jsOrNum quote.v.h
    low := jsOrNum quote.v.l
    volume := jsOrNum quote.v.v
    lastUpdated := now }

/-- The body of the live-mode `try` block of `fetchQuotes`: failover fetch,
status checks (401, 403, other non-success), envelope check (`s` must be
the literal "ok" and `d` present), then the per-entry mapping. -/
def fetchQuotesTry (outcomes : List (Except String (Response FyersResponse))) (now : ℕ) :
    Except String (List Stock) :=
  match fetchWithFailover outcomes with
  | Except.error e => Except.error e
  | Except.ok response =>
    if respOk response = false then
      if response.status = 401 then Except.error "Invalid Credentials or Token Expired"
      else if response.status = 403 then Except.error "Access Forbidden (Check Permissions)"
      else Except.error ("API Error: " ++ toString response.status ++ " " ++ response.statusText)
    else
      let data := response.body
      if data.s ≠ "ok" ∨ data.d = none then
        Except.error (jsOrString data.message "Failed to fetch quotes")
      else
        Except.ok ((data.d.getD []).map (mapQuote now))

/-- The `catch` wrapper of `fetchQuotes`: the literal browser transport
message "Failed to fetch" becomes the network-error message, an empty
message becomes the generic fallback, anything else is rethrown verbatim. -/
def wrapFetchError (e : String) : String :=
  if e = "Failed to fetch" then
    "Network Error: Could not connect to Fyers via Proxy. Please check your internet."
  else if e = "" then "Failed to connect to Fyers API"
  else e

/-- `fetchQuotes` of src/services/fyers.ts.  Demo mode returns the demo data
(the 300 ms latency simulation has no observable effect on the value);
live mode runs the failover fetch and normalization under the catch
wrapper. -/
def fetchQuotes (config : FyersConfig) (outcomes : List (Except String (Response FyersResponse)))
    (dr : ℕ → ℚ) (now : ℕ) : Except String (List Stock) :=
  if config.isDemoMode then Except.ok (generateDemoData dr now)
  else
    match fetchQuotesTry outcomes now with
    | Except.ok v => Except.ok v
    | Except.error e => Except.error (wrapFetchError e)

/-- The JSON body of the auth-validation POST request. -/
structure AuthPayload where
  grant_type : String
  appIdHash : String
  code : String
  client_id : String
deriving DecidableEq

/-- The parsed JSON body of the auth-validation response: `access_token`
may be absent. -/
structure AuthResponse where
  s : String
  access_token : Option String
  message : Option String

/-- The `payload` local of `exchangeAuthCode`: the body of the single POST. -/
def sentAuthPayload (authCode appId secretId : String) : AuthPayload :=
  { grant_type := "authorization_code"
    appIdHash := generateAppIdHash appId secretId
    code := authCode
    client_id := appId }

/-- The body of the `try` block of `exchangeAuthCode`.  The environment's
response may depend on the posted payload, so the relay outcomes are
injected as a function of it. -/
def exchangeAuthCodeTry (authCode appId secretId : String)
    (outcomes : AuthPayload → List (Except String (Response AuthResponse))) :
    Except String (Option String) :=
  match fetchWithFailover (outcomes (sentAuthPayload authCode appId secretId)) with
  | Except.error e => Except.error e
  | Except.ok response =>
    let data := response.body
    if data.s ≠ "ok" then Except.error (jsOrString data.message "Failed to validate auth code")
    else Except.ok data.access_token

/-- The `catch` wrapper of `exchangeAuthCode`. -/
def wrapAuthError (e : String) : String :=
  if e = "Failed to fetch" then "Network Error during Auth. Please check your connection."
  else if e = "" then "Failed to exchange auth code"
  else e

/-- `exchangeAuthCode` of src/services/fyers.ts.  The success value is the
response's `access_token` field, which may be absent (`none` models the
JavaScript `undefined`). -/
def exchangeAuthCode (authCode appId secretId : String)
    (outcomes : AuthPayload → List (Except String (Response AuthResponse))) :
    Except String (Option String) :=
  match exchangeAuthCodeTry authCode appId secretId outcomes with
  | Except.ok v => Except.ok v
  | Except.error e => Except.error (wrapAuthError e)

/-! ## Concrete fixtures for witnesses and counterexamples -/

/-- A quote-values payload with every field absent. -/
def emptyVals : QuoteValues := ⟨none, none, none, none, none, none, none, none, none⟩

/-- A raw provider entry whose symbol is not in the Instrument Reference
table. -/
def fakeQuote : FyersQuoteData := ⟨"NSE:FAKE-XX", emptyVals⟩

/-- A raw provider entry with every numeric field present and distinct. -/
def fullQuote : FyersQuoteData :=
  ⟨"NSE:SBIN-EQ", ⟨some 2, some 3, some 1, some 4, some 5, some 6, some 7, some 8, some 9⟩⟩

/-- A well-formed empty success response for the quotes endpoint. -/
def sampleOkResponse : Response FyersResponse := ⟨200, "OK", ⟨"ok", some [], none, none⟩⟩

/-- An auth-validation success response carrying a token. -/
def authRespWithToken : Response AuthResponse := ⟨200, "OK", ⟨"ok", some "tok_xyz", none⟩⟩

/-- An auth-validation success response with the token field absent. -/
def authRespNoToken : Response AuthResponse := ⟨200, "OK", ⟨"ok", none, none⟩⟩

/-! ## Validation of the SHA-256 model and basic facts -/

set_option maxRecDepth 100000 in
/-- The modelled digest agrees with the FIPS 180-4 test vector for "abc". -/
theorem sha256_testvector_abc :
    sha256Hex "abc" = "ba7816bf8f01cfea414140de5dae2223b00361a396177a9cb410ff61f20015ad" := by
  decide

/-- The Instrument Reference table has exactly 50 entries. -/
theorem nifty_length : NIFTY_50_SYMBOLS.length = 50 := by decide

/-- The symbols of the Instrument Reference table are pairwise distinct. -/
theorem nifty_symbols_nodup : (NIFTY_50_SYMBOLS.map NiftyItem.symbol).Nodup := by decide

/-! ## Failover characterization -/

/-- Relays that throw are skipped: the first relay that returns a response
ends the failover and that response is returned, whatever its status. -/
theorem failoverGo_ok {β : Type} (errs : List String) :
    ∀ (last : Option String) (r : Response β) (rest : List (Except String (Response β))),
      failoverGo last (errs.map Except.error ++ Except.ok r :: rest) = Except.ok r := by
  induction errs with
  | nil => intro last r rest; rfl
  | cons e es ih => intro last r rest; simpa [failoverGo] using ih (some e) r rest

/-- If every relay throws, the loop fails with the last thrown error, or with
the incoming `lastError` default when the list is empty. -/
theorem failoverGo_all_errors {β : Type} :
    ∀ (errs : List String) (last : Option String),
      failoverGo (β := β) last (errs.map Except.error) =
        Except.error (errs.getLast?.getD (last.getD "Unable to connect to any CORS proxy.")) := by
  intro errs
  induction errs with
  | nil => intro last; rfl
  | cons e es ih =>
    intro last
    cases es with
    | nil => simp [failoverGo, ih]
    | cons e2 es2 => simpa [failoverGo, List.getLast?] using ih (some e)

/-! ## Demo-data facts -/

/-- Rounding to two decimals is monotone. -/
theorem jsToFixed2_le {x y : ℚ} (h : x ≤ y) : jsToFixed2 x ≤ jsToFixed2 y := by
  unfold jsToFixed2
  have h1 : round (x * 100) ≤ round (y * 100) := by
    rw [round_eq, round_eq]
    exact Int.floor_mono (by linarith)
  have h2 : ((round (x * 100) : ℤ) : ℚ) ≤ ((round (y * 100) : ℤ) : ℚ) := by exact_mod_cast h1
  linarith

/-- In every demo record the low is at most the high, whatever the draws. -/
theorem demoStock_low_le_high (dr : ℕ → ℚ) (now i : ℕ) (item : NiftyItem) :
    (demoStock dr now i item).low ≤ (demoStock dr now i item).high := by
  simp only [demoStock]
  exact jsToFixed2_le (by linarith [abs_nonneg ((dr (3 * i + 1) - 1 / 2) * 50)])

/-- Demo volumes are nonnegative when the draws are nonnegative. -/
theorem demoStock_volume_nonneg (dr : ℕ → ℚ) (now i : ℕ) (item : NiftyItem)
    (h : 0 ≤ dr (3 * i + 2)) : 0 ≤ (demoStock dr now i item).volume := by
  simp only [demoStock]
  have h1 : (0 : ℤ) ≤ ⌊dr (3 * i + 2) * 1000000⌋ :=
    Int.le_floor.mpr (by push_cast; nlinarith)
  exact_mod_cast h1

/-- A demo record keeps its instrument's symbol. -/
theorem demoStock_symbol (dr : ℕ → ℚ) (now i : ℕ) (item : NiftyItem) :
    (demoStock dr now i item).symbol = item.symbol := rfl

/-- The demo generator yields one record per table entry. -/
theorem demoGo_length (dr : ℕ → ℚ) (now : ℕ) :
    ∀ (i : ℕ) (l : List NiftyItem), (demoGo dr now i l).length = l.length := by
  intro i l
  induction l generalizing i with
  | nil => rfl
  | cons x xs ih => simp [demoGo, ih]

/-- The demo generator's symbols are the table's symbols, in order. -/
theorem demoGo_map_symbol (dr : ℕ → ℚ) (now : ℕ) :
    ∀ (i : ℕ) (l : List NiftyItem),
      (demoGo dr now i l).map Stock.symbol = l.map NiftyItem.symbol := by
  intro i l
  induction l generalizing i with
  | nil => rfl
  | cons x xs ih => simp [demoGo, demoStock_symbol, ih]

/-- Shape bounds for every record the demo generator emits. -/
theorem demoGo_bounds (dr : ℕ → ℚ) (now : ℕ) (hdr : ∀ n, 0 ≤ dr n) :
    ∀ (i : ℕ) (l : List NiftyItem) (st : Stock), st ∈ demoGo dr now i l →
      st.low ≤ st.high ∧ 0 ≤ st.volume := by
  intro i l
  induction l generalizing i with
  | nil => intro st h; cases h
  | cons x xs ih =>
    intro st h
    rw [demoGo, List.mem_cons] at h
    rcases h with h | h
    · subst h
      exact ⟨demoStock_low_le_high dr now i x, demoStock_volume_nonneg dr now i x (hdr _)⟩
    · exact ih (i + 1) st h

/-! ## Error-message distinguishability helpers -/

/-- The generic API-error message always starts with the characters "AP". -/
theorem apiError_data_head (s t : String) :
    ∃ l, ("API Error: " ++ s ++ " " ++ t).data = 'A' :: 'P' :: l := by
  refine ⟨"I Error: ".data ++ s.data ++ " ".data ++ t.data, ?_⟩
  simp only [String.data_append]
  simp [List.cons_append, List.append_assoc]

/-- The generic API-error message differs from every string whose first two
characters are not "AP". -/
theorem apiError_ne (s t u : String) (c1 c2 : Char) (l : List Char)
    (hu : u.data = c1 :: c2 :: l) (hc : ¬(c1 = 'A' ∧ c2 = 'P')) :
    "API Error: " ++ s ++ " " ++ t ≠ u := by
  intro h
  obtain ⟨l2, hl⟩ := apiError_data_head s t
  rw [h, hu] at hl
  injection hl with h1 h2
  injection h2 with h2 _
  exact hc ⟨h1, h2⟩

/-- A wrapped error message passes through unchanged when it is neither the
canonical transport message nor empty. -/
theorem wrapFetchError_id (e : String) (h1 : e ≠ "Failed to fetch") (h2 : e ≠ "") :
    wrapFetchError e = e := by
  simp [wrapFetchError, h1, h2]

/-! ## fetchQuotes unfolding lemmas -/

/-- Demo mode short-circuits to the demo data. -/
theorem fetchQuotes_demo (cfg : FyersConfig) (outcomes : List (Except String (Response FyersResponse)))
    (dr : ℕ → ℚ) (now : ℕ) (h : cfg.isDemoMode = true) :
    fetchQuotes cfg outcomes dr now = Except.ok (generateDemoData dr now) := by
  simp [fetchQuotes, h]

/-- Success path of the live `try` block: failover returned a success-status
response with a well-formed envelope. -/
theorem fetchQuotesTry_success (outcomes : List (Except String (Response FyersResponse)))
    (now : ℕ) (r : Response FyersResponse) (entries : List FyersQuoteData)
    (hf : fetchWithFailover outcomes = Except.ok r) (hok : respOk r = true)
    (hs : r.body.s = "ok") (hd : r.body.d = some entries) :
    fetchQuotesTry outcomes now = Except.ok (entries.map (mapQuote now)) := by
  simp [fetchQuotesTry, hf, hok, hs, hd]

/-- Malformed-envelope path of the live `try` block. -/
theorem fetchQuotesTry_badEnvelope (outcomes : List (Except String (Response FyersResponse)))
    (now : ℕ) (r : Response FyersResponse)
    (hf : fetchWithFailover outcomes = Except.ok r) (hok : respOk r = true)
    (hbad : r.body.s ≠ "ok" ∨ r.body.d = none) :
    fetchQuotesTry outcomes now = Except.error (jsOrString r.body.message "Failed to fetch quotes") := by
  have : (r.body.s ≠ "ok" ∨ r.body.d = none) = True := by simp [hbad]
  simp [fetchQuotesTry, hf, hok, this]

/-- Non-success-status path of the live `try` block. -/
theorem fetchQuotesTry_status (outcomes : List (Except String (Response FyersResponse)))
    (now : ℕ) (r : Response FyersResponse)
    (hf : fetchWithFailover outcomes = Except.ok r) (hok : respOk r = false) :
    fetchQuotesTry outcomes now =
      (if r.status = 401 then Except.error "Invalid Credentials or Token Expired"
       else if r.status = 403 then Except.error "Access Forbidden (Check Permissions)"
       else Except.error ("API Error: " ++ toString r.status ++ " " ++ r.statusText)) := by
  simp [fetchQuotesTry, hf, hok]

/-- Live mode applies the catch wrapper around the `try` body. -/
theorem fetchQuotes_live (cfg : FyersConfig) (outcomes : List (Except String (Response FyersResponse)))
    (dr : ℕ → ℚ) (now : ℕ) (h : cfg.isDemoMode = false) :
    fetchQuotes cfg outcomes dr now =
      (match fetchQuotesTry outcomes now with
       | Except.ok v => Except.ok v
       | Except.error e => Except.error (wrapFetchError e)) := by
  simp [fetchQuotes, h]

/-- Inversion: a live-mode success whose failover returned `r` with `d`
present can only have come from the success path, and the records are the
entry-wise normalization of `d`. -/
theorem fetchQuotes_live_ok_inv (cfg : FyersConfig)
    (outcomes : List (Except String (Response FyersResponse))) (dr : ℕ → ℚ) (now : ℕ)
    (l : List Stock) (r : Response FyersResponse) (entries : List FyersQuoteData)
    (hmode : cfg.isDemoMode = false)
    (hl : fetchQuotes cfg outcomes dr now = Except.ok l)
    (hf : fetchWithFailover outcomes = Except.ok r)
    (hd : r.body.d = some entries) :
    l = entries.map (mapQuote now) := by
  rw [fetchQuotes_live cfg outcomes dr now hmode] at hl
  rcases hok : respOk r with _ | _
  · rw [fetchQuotesTry_status outcomes now r hf hok] at hl
    by_cases h1 : r.status = 401 <;> by_cases h2 : r.status = 403 <;> simp [h1, h2] at hl
  · by_cases hs : r.body.s = "ok"
    · rw [fetchQuotesTry_success outcomes now r entries hf hok hs hd] at hl
      simpa using hl.symm
    · rw [fetchQuotesTry_badEnvelope outcomes now r hf hok (Or.inl hs)] at hl
      simp at hl

/-! ## exchangeAuthCode unfolding lemmas -/

/-- Success path of `exchangeAuthCode`: some relay returned a response whose
body has status literal "ok". -/
theorem exchangeAuthCode_ok (authCode appId secretId : String)
    (outcomes : AuthPayload → List (Except String (Response AuthResponse)))
    (r : Response AuthResponse)
    (hf : fetchWithFailover (outcomes (sentAuthPayload authCode appId secretId)) = Except.ok r)
    (hs : r.body.s = "ok") :
    exchangeAuthCode authCode appId secretId outcomes = Except.ok r.body.access_token := by
  simp [exchangeAuthCode, exchangeAuthCodeTry, hf, hs]

/-! ## Claim C2 -/

/-- C2: the failover fetch tries the relay list in its listed order; a relay
that raises a transport exception is skipped in favour of the next relay;
any relay that returns an HTTP response (success or error status) ends
failover and that response is returned; and if every relay raises a
transport exception, the operation fails with the last underlying error when
one exists, else the generic message. -/
theorem claim_c2_failover_order :
    (∀ (errs : List String) (r : Response FyersResponse)
       (rest : List (Except String (Response FyersResponse))),
       fetchWithFailover (errs.map Except.error ++ Except.ok r :: rest) = Except.ok r) ∧
    (∀ (errs : List String) (e : String), errs.getLast? = some e →
       fetchWithFailover (β := FyersResponse) (errs.map Except.error) = Except.error e) ∧
    fetchWithFailover (β := FyersResponse) [] =
      Except.error "Unable to connect to any CORS proxy." := by
  refine ⟨?_, ?_, rfl⟩
  · intro errs r rest
    exact failoverGo_ok errs none r rest
  · intro errs e he
    rw [fetchWithFailover, failoverGo_all_errors, he]
    rfl

/-- Witness for C2 at concrete inputs: a throwing relay is skipped in favour
of the responding one, and two throwing relays surface the second error. -/
theorem claim_c2_failover_order_witness :
    fetchWithFailover [Except.error "boom", Except.ok sampleOkResponse, Except.error "later"] =
      Except.ok sampleOkResponse ∧
    fetchWithFailover (β := FyersResponse) [Except.error "first", Except.error "second"] =
      Except.error "second" := by
  constructor
  · exact claim_c2_failover_order.1 ["boom"] sampleOkResponse [Except.error "later"]
  · exact claim_c2_failover_order.2.1 ["first", "second"] "second" rfl

/-! ## Claim C5 -/

/-- C5: every call of `exchangeAuthCode` posts the JSON body with
`grant_type` the literal "authorization_code", `appIdHash` the hex SHA-256
of "applicationId:secretKey", `code` the authorization code and `client_id`
the application id; and when the provider response has `s` equal to "ok" it
resolves with the response's `access_token` field verbatim. -/
theorem claim_c5_exchange_post :
    (∀ authCode appId secretKey : String,
       sentAuthPayload authCode appId secretKey =
         { grant_type := "authorization_code"
           appIdHash := sha256Hex (appId ++ ":" ++ secretKey)
           code := authCode
           client_id := appId }) ∧
    (∀ (authCode appId secretKey : String)
       (outcomes : AuthPayload → List (Except String (Response AuthResponse)))
       (r : Response AuthResponse),
       fetchWithFailover (outcomes (sentAuthPayload authCode appId secretKey)) = Except.ok r →
       r.body.s = "ok" →
       exchangeAuthCode authCode appId secretKey outcomes = Except.ok r.body.access_token) := by
  constructor
  · intro authCode appId secretKey
    rfl
  · intro authCode appId secretKey outcomes r hf hs
    exact exchangeAuthCode_ok authCode appId secretKey outcomes r hf hs

/-- Witness for C5 at the spec's example: exchanging code "abc123" for
application "XV1-100" with secret "s3cr3t" posts the hash of
"XV1-100:s3cr3t" and returns "tok_xyz" from the provider's ok response. -/
theorem claim_c5_exchange_post_witness :
    sentAuthPayload "abc123" "XV1-100" "s3cr3t" =
      { grant_type := "authorization_code"
        appIdHash := sha256Hex ("XV1-100" ++ ":" ++ "s3cr3t")
        code := "abc123"
        client_id := "XV1-100" } ∧
    exchangeAuthCode "abc123" "XV1-100" "s3cr3t" (fun _ => [Except.ok authRespWithToken]) =
      Except.ok (some "tok_xyz") := by
  constructor
  · exact claim_c5_exchange_post.1 "abc123" "XV1-100" "s3cr3t"
  · exact claim_c5_exchange_post.2 "abc123" "XV1-100" "s3cr3t"
      (fun _ => [Except.ok authRespWithToken]) authRespWithToken rfl rfl

/-! ## Claim C9 -/

/-- C9: the credential hash depends on its two inputs only through the
joined string "applicationId:secretKey", so distinct input pairs with the
same joined string collide; in particular ("A:B", "C") and ("A", "B:C") are
distinct pairs with the same digest. -/
theorem claim_c9_hash_join_only :
    (∀ a b a2 b2 : String, a ++ ":" ++ b = a2 ++ ":" ++ b2 →
       generateAppIdHash a b = generateAppIdHash a2 b2) ∧
    (generateAppIdHash "A:B" "C" = generateAppIdHash "A" "B:C" ∧
     (("A:B", "C") : String × String) ≠ ("A", "B:C")) := by
  refine ⟨?_, ?_, by decide⟩
  · intro a b a2 b2 h
    unfold generateAppIdHash
    rw [h]
  · rfl

/-- Witness for C9's universally quantified part at a concrete joined-string
coincidence. -/
theorem claim_c9_hash_join_only_witness :
    generateAppIdHash "P:Q" "R" = generateAppIdHash "P" "Q:R" := by
  exact claim_c9_hash_join_only.1 "P:Q" "R" "P" "Q:R" rfl

/-! ## Claim C10 -/

/-- C10: when the provider's auth-validation response has `s` equal to "ok"
but no `access_token` field, `exchangeAuthCode` resolves successfully with
the absent (undefined) value rather than failing. -/
theorem claim_c10_missing_token :
    ∀ (authCode appId secretId : String)
      (outcomes : AuthPayload → List (Except String (Response AuthResponse)))
      (r : Response AuthResponse),
      fetchWithFailover (outcomes (sentAuthPayload authCode appId secretId)) = Except.ok r →
      r.body.s = "ok" → r.body.access_token = none →
      exchangeAuthCode authCode appId secretId outcomes = Except.ok none := by
  intro authCode appId secretId outcomes r hf hs ht
  rw [exchangeAuthCode_ok authCode appId secretId outcomes r hf hs, ht]

/-- Witness for C10 at a concrete ok-response without a token. -/
theorem claim_c10_missing_token_witness :
    exchangeAuthCode "code1" "app1" "sec1" (fun _ => [Except.ok authRespNoToken]) =
      Except.ok none := by
  exact claim_c10_missing_token "code1" "app1" "sec1"
    (fun _ => [Except.ok authRespNoToken]) authRespNoToken rfl rfl rfl

/-! ## Claim C7 -/

/-- C7: for every credential in simulated mode, under Math.random draws in
[0,1), `poll` never fails and returns exactly 50 records, one per Instrument
Reference entry (same symbols, same order), and every returned record has
`high >= low` and `volume >= 0` regardless of the draws. -/
theorem claim_c7_demo_shape :
    ∀ (cfg : FyersConfig) (outcomes : List (Except String (Response FyersResponse)))
      (dr : ℕ → ℚ) (now : ℕ),
      cfg.isDemoMode = true → (∀ n, 0 ≤ dr n ∧ dr n < 1) →
      fetchQuotes cfg outcomes dr now = Except.ok (generateDemoData dr now) ∧
      (generateDemoData dr now).length = 50 ∧
      (generateDemoData dr now).map Stock.symbol = NIFTY_50_SYMBOLS.map NiftyItem.symbol ∧
      ∀ st ∈ generateDemoData dr now, st.low ≤ st.high ∧ 0 ≤ st.volume := by
  intro cfg outcomes dr now hmode hdr
  refine ⟨fetchQuotes_demo cfg outcomes dr now hmode, ?_, ?_, ?_⟩
  · rw [generateDemoData, demoGo_length, nifty_length]
  · exact demoGo_map_symbol dr now 0 NIFTY_50_SYMBOLS
  · intro st hst
    exact demoGo_bounds dr now (fun n => (hdr n).1) 0 NIFTY_50_SYMBOLS st hst

/-- Witness for C7 with the constant draw 1/2 and a concrete demo
credential. -/
theorem claim_c7_demo_shape_witness :
    fetchQuotes ⟨"app", "tok", true⟩ [] (fun _ => 1 / 2) 0 =
      Except.ok (generateDemoData (fun _ => 1 / 2) 0) ∧
    (generateDemoData (fun _ => (1 : ℚ) / 2) 0).length = 50 ∧
    (generateDemoData (fun _ => (1 : ℚ) / 2) 0).map Stock.symbol =
      NIFTY_50_SYMBOLS.map NiftyItem.symbol ∧
    ∀ st ∈ generateDemoData (fun _ => (1 : ℚ) / 2) 0, st.low ≤ st.high ∧ 0 ≤ st.volume := by
  exact claim_c7_demo_shape ⟨"app", "tok", true⟩ [] (fun _ => 1 / 2) 0 rfl
    (fun n => by norm_num)

/-! ## Claim C1 -/

/-- C1 as stated is false on the code: in live mode the records' symbols are
copied verbatim from the provider's `d` entries, so a provider body whose
entries repeat an unknown symbol yields a successful poll with a duplicated
symbol that is not in the Instrument Reference table. -/
theorem claim_c1_counterexample :
    fetchQuotes ⟨"app", "tok", false⟩
        [Except.ok ⟨200, "OK", ⟨"ok", some [fakeQuote, fakeQuote], none, none⟩⟩]
        (fun _ => 0) 0 =
      Except.ok [mapQuote 0 fakeQuote, mapQuote 0 fakeQuote] ∧
    ¬ ((([mapQuote 0 fakeQuote, mapQuote 0 fakeQuote]).map Stock.symbol).Nodup ∧
       ∀ s ∈ ([mapQuote 0 fakeQuote, mapQuote 0 fakeQuote]).map Stock.symbol,
         s ∈ NIFTY_50_SYMBOLS.map NiftyItem.symbol) := by
  constructor
  · rfl
  · decide

/-- C1 amended: a successful simulated poll always returns at most one record
per symbol with all symbols in the Instrument Reference table; a successful
live poll returns exactly the provider entries' symbols in their order, so
it satisfies the same invariant whenever those symbols are pairwise distinct
and drawn from the table. -/
theorem claim_c1_symbol_invariant :
    (∀ (cfg : FyersConfig) (outcomes : List (Except String (Response FyersResponse)))
       (dr : ℕ → ℚ) (now : ℕ) (l : List Stock),
       cfg.isDemoMode = true → fetchQuotes cfg outcomes dr now = Except.ok l →
       (l.map Stock.symbol).Nodup ∧
       ∀ s ∈ l.map Stock.symbol, s ∈ NIFTY_50_SYMBOLS.map NiftyItem.symbol) ∧
    (∀ (cfg : FyersConfig) (outcomes : List (Except String (Response FyersResponse)))
       (dr : ℕ → ℚ) (now : ℕ) (l : List Stock) (r : Response FyersResponse)
       (entries : List FyersQuoteData),
       cfg.isDemoMode = false → fetchQuotes cfg outcomes dr now = Except.ok l →
       fetchWithFailover outcomes = Except.ok r → r.body.d = some entries →
       l.map Stock.symbol = entries.map FyersQuoteData.n ∧
       ((entries.map FyersQuoteData.n).Nodup →
        (∀ s ∈ entries.map FyersQuoteData.n, s ∈ NIFTY_50_SYMBOLS.map NiftyItem.symbol) →
        (l.map Stock.symbol).Nodup ∧
        ∀ s ∈ l.map Stock.symbol, s ∈ NIFTY_50_SYMBOLS.map NiftyItem.symbol)) := by
  constructor
  · intro cfg outcomes dr now l hmode hl
    rw [fetchQuotes_demo cfg outcomes dr now hmode] at hl
    have hl2 : l = generateDemoData dr now := by simpa using hl.symm
    subst hl2
    rw [generateDemoData, demoGo_map_symbol]
    exact ⟨nifty_symbols_nodup, fun s hs => hs⟩
  · intro cfg outcomes dr now l r entries hmode hl hf hd
    have hle : l = entries.map (mapQuote now) :=
      fetchQuotes_live_ok_inv cfg outcomes dr now l r entries hmode hl hf hd
    subst hle
    have hsym : (entries.map (mapQuote now)).map Stock.symbol = entries.map FyersQuoteData.n := by
      rw [List.map_map]
      rfl
    refine ⟨hsym, fun hnd hsub => ?_⟩
    rw [hsym]
    exact ⟨hnd, hsub⟩

/-- Witness for C1's amended statement: the demo conjunct at a concrete
credential and draw stream, and the live conjunct at a one-entry response
with a known symbol. -/
theorem claim_c1_symbol_invariant_witness :
    (((generateDemoData (fun _ => (0 : ℚ)) 0).map Stock.symbol).Nodup ∧
     ∀ s ∈ (generateDemoData (fun _ => (0 : ℚ)) 0).map Stock.symbol,
       s ∈ NIFTY_50_SYMBOLS.map NiftyItem.symbol) ∧
    (([fullQuote].map (mapQuote 0)).map Stock.symbol = [fullQuote].map FyersQuoteData.n ∧
     (([fullQuote].map (mapQuote 0)).map Stock.symbol).Nodup ∧
     ∀ s ∈ ([fullQuote].map (mapQuote 0)).map Stock.symbol,
       s ∈ NIFTY_50_SYMBOLS.map NiftyItem.symbol) := by
  constructor
  · exact claim_c1_symbol_invariant.1 ⟨"app", "tok", true⟩ [] (fun _ => 0) 0
      (generateDemoData (fun _ => 0) 0) rfl rfl
  · have h := claim_c1_symbol_invariant.2 ⟨"app", "tok", false⟩
      [Except.ok ⟨200, "OK", ⟨"ok", some [fullQuote], none, none⟩⟩] (fun _ => 0) 0
      ([fullQuote].map (mapQuote 0)) ⟨200, "OK", ⟨"ok", some [fullQuote], none, none⟩⟩
      [fullQuote] rfl rfl rfl rfl
    exact ⟨h.1, h.2 (by decide) (by decide)⟩

/-! ## Claim C8 -/

/-- C8: a live-mode success maps the provider's `d` array entry-wise and in
order, and each produced record's numeric fields read back exactly the raw
entry's lp/ch/chp/o/h/l/v when present and 0 when the field is missing (the
fields are total rationals, so no null, undefined or NaN value can occur). -/
theorem claim_c8_roundtrip :
    (∀ (cfg : FyersConfig) (outcomes : List (Except String (Response FyersResponse)))
       (dr : ℕ → ℚ) (now : ℕ) (r : Response FyersResponse) (entries : List FyersQuoteData),
       cfg.isDemoMode = false → fetchWithFailover outcomes = Except.ok r →
       respOk r = true → r.body.s = "ok" → r.body.d = some entries →
       fetchQuotes cfg outcomes dr now = Except.ok (entries.map (mapQuote now)) ∧
       (entries.map (mapQuote now)).map Stock.symbol = entries.map FyersQuoteData.n) ∧
    (∀ (now : ℕ) (q : FyersQuoteData),
       ((∀ x, q.v.lp = some x → (mapQuote now q).ltp = x) ∧
        (q.v.lp = none → (mapQuote now q).ltp = 0)) ∧
       ((∀ x, q.v.ch = some x → (mapQuote now q).change = x) ∧
        (q.v.ch = none → (mapQuote now q).change = 0)) ∧
       ((∀ x, q.v.chp = some x → (mapQuote now q).changePercent = x) ∧
        (q.v.chp = none → (mapQuote now q).changePercent = 0)) ∧
       ((∀ x, q.v.o = some x → (mapQuote now q).openPrice = x) ∧
        (q.v.o = none → (mapQuote now q).openPrice = 0)) ∧
       ((∀ x, q.v.h = some x → (mapQuote now q).high = x) ∧
        (q.v.h = none → (mapQuote now q).high = 0)) ∧
       ((∀ x, q.v.l = some x → (mapQuote now q).low = x) ∧
        (q.v.l = none → (mapQuote now q).low = 0)) ∧
       ((∀ x, q.v.v = some x → (mapQuote now q).volume = x) ∧
        (q.v.v = none → (mapQuote now q).volume = 0))) := by
  constructor
  · intro cfg outcomes dr now r entries hmode hf hok hs hd
    constructor
    · rw [fetchQuotes_live cfg outcomes dr now hmode,
        fetchQuotesTry_success outcomes now r entries hf hok hs hd]
    · rw [List.map_map]
      rfl
  · intro now q
    refine ⟨⟨?_, ?_⟩, ⟨?_, ?_⟩, ⟨?_, ?_⟩, ⟨?_, ?_⟩, ⟨?_, ?_⟩, ⟨?_, ?_⟩, ⟨?_, ?_⟩⟩ <;>
      first
      | (intro x hx; simp [mapQuote, jsOrNum, hx])
      | (intro hx; simp [mapQuote, jsOrNum, hx])

/-- Witness for C8: a two-entry response (one entry with every field set,
one with every field missing) maps end to end, and the field equations hold
at those entries. -/
theorem claim_c8_roundtrip_witness :
    (fetchQuotes ⟨"app", "tok", false⟩
        [Except.ok ⟨200, "OK", ⟨"ok", some [fullQuote, fakeQuote], none, none⟩⟩]
        (fun _ => 0) 0 =
      Except.ok ([fullQuote, fakeQuote].map (mapQuote 0)) ∧
     ([fullQuote, fakeQuote].map (mapQuote 0)).map Stock.symbol =
       [fullQuote, fakeQuote].map FyersQuoteData.n) ∧
    (mapQuote 0 fullQuote).ltp = 1 ∧ (mapQuote 0 fakeQuote).ltp = 0 := by
  refine ⟨?_, ?_, ?_⟩
  · exact claim_c8_roundtrip.1 ⟨"app", "tok", false⟩
      [Except.ok ⟨200, "OK", ⟨"ok", some [fullQuote, fakeQuote], none, none⟩⟩]
      (fun _ => 0) 0 ⟨200, "OK", ⟨"ok", some [fullQuote, fakeQuote], none, none⟩⟩
      [fullQuote, fakeQuote] rfl rfl rfl rfl rfl
  · exact (claim_c8_roundtrip.2 0 fullQuote).1.1 1 rfl
  · exact (claim_c8_roundtrip.2 0 fakeQuote).1.2 rfl

/-! ## Claim C3 -/

/-- The generic API-error message is never the empty string. -/
theorem apiError_ne_empty (s t : String) : "API Error: " ++ s ++ " " ++ t ≠ "" := by
  intro h
  obtain ⟨l, hl⟩ := apiError_data_head s t
  rw [h] at hl
  exact List.noConfusion hl

/-- The catch wrapper keeps the generic API-error message unchanged. -/
theorem wrapFetchError_apiError (s t : String) :
    wrapFetchError ("API Error: " ++ s ++ " " ++ t) = "API Error: " ++ s ++ " " ++ t :=
  wrapFetchError_id _ (apiError_ne (s := s) (t := t) _ 'F' 'a' _ rfl (by decide))
    (apiError_ne_empty s t)

/-- C3: in live mode an HTTP 401 (resp. 403) makes `poll` fail with the
invalid-credential (resp. forbidden) message; any other non-success status
fails with the generic API-error message, which differs from both; when
every relay throws the canonical browser transport error, `poll` fails with
the network-error message, which also differs from both; `poll` never
returns records in any of these cases since the result is an error. -/
theorem claim_c3_error_kinds :
    (∀ (cfg : FyersConfig) (outcomes : List (Except String (Response FyersResponse)))
       (dr : ℕ → ℚ) (now : ℕ) (r : Response FyersResponse),
       cfg.isDemoMode = false → fetchWithFailover outcomes = Except.ok r → r.status = 401 →
       fetchQuotes cfg outcomes dr now = Except.error "Invalid Credentials or Token Expired") ∧
    (∀ (cfg : FyersConfig) (outcomes : List (Except String (Response FyersResponse)))
       (dr : ℕ → ℚ) (now : ℕ) (r : Response FyersResponse),
       cfg.isDemoMode = false → fetchWithFailover outcomes = Except.ok r → r.status = 403 →
       fetchQuotes cfg outcomes dr now = Except.error "Access Forbidden (Check Permissions)") ∧
    (∀ (cfg : FyersConfig) (outcomes : List (Except String (Response FyersResponse)))
       (dr : ℕ → ℚ) (now : ℕ) (r : Response FyersResponse),
       cfg.isDemoMode = false → fetchWithFailover outcomes = Except.ok r →
       respOk r = false → r.status ≠ 401 → r.status ≠ 403 →
       fetchQuotes cfg outcomes dr now =
         Except.error ("API Error: " ++ toString r.status ++ " " ++ r.statusText) ∧
       "API Error: " ++ toString r.status ++ " " ++ r.statusText ≠
         "Invalid Credentials or Token Expired" ∧
       "API Error: " ++ toString r.status ++ " " ++ r.statusText ≠
         "Access Forbidden (Check Permissions)") ∧
    (∀ (cfg : FyersConfig) (dr : ℕ → ℚ) (now : ℕ) (errs : List String),
       cfg.isDemoMode = false → errs.getLast? = some "Failed to fetch" →
       fetchQuotes cfg (errs.map Except.error) dr now =
         Except.error
           "Network Error: Could not connect to Fyers via Proxy. Please check your internet.") ∧
    ("Invalid Credentials or Token Expired" ≠
       "Network Error: Could not connect to Fyers via Proxy. Please check your internet." ∧
     "Access Forbidden (Check Permissions)" ≠
       "Network Error: Could not connect to Fyers via Proxy. Please check your internet." ∧
     "Invalid Credentials or Token Expired" ≠ "Access Forbidden (Check Permissions)") := by
  refine ⟨?_, ?_, ?_, ?_, by decide, by decide, by decide⟩
  · intro cfg outcomes dr now r hmode hf h401
    have hok : respOk r = false := by simp [respOk, h401]
    rw [fetchQuotes_live cfg outcomes dr now hmode,
      fetchQuotesTry_status outcomes now r hf hok]
    simp [h401, wrapFetchError]
  · intro cfg outcomes dr now r hmode hf h403
    have hok : respOk r = false := by simp [respOk, h403]
    rw [fetchQuotes_live cfg outcomes dr now hmode,
      fetchQuotesTry_status outcomes now r hf hok]
    simp [h403, wrapFetchError]
  · intro cfg outcomes dr now r hmode hf hok h401 h403
    refine ⟨?_, apiError_ne _ _ _ 'I' 'n' _ rfl (by decide),
      apiError_ne _ _ _ 'A' 'c' _ rfl (by decide)⟩
    rw [fetchQuotes_live cfg outcomes dr now hmode,
      fetchQuotesTry_status outcomes now r hf hok]
    simp [h401, h403, wrapFetchError_apiError]
  · intro cfg dr now errs hmode hlast
    have hfail : fetchWithFailover (β := FyersResponse) (errs.map Except.error) =
        Except.error "Failed to fetch" := by
      rw [fetchWithFailover, failoverGo_all_errors, hlast]
      rfl
    rw [fetchQuotes_live cfg (errs.map Except.error) dr now hmode]
    simp [fetchQuotesTry, hfail, wrapFetchError]

/-- Witness for C3 at concrete responses with status 401, 403, 500, and at a
relay list whose every entry throws the canonical transport error. -/
theorem claim_c3_error_kinds_witness :
    fetchQuotes ⟨"app", "tok", false⟩ [Except.ok ⟨401, "Unauthorized", ⟨"error", none, none, none⟩⟩]
        (fun _ => 0) 0 = Except.error "Invalid Credentials or Token Expired" ∧
    fetchQuotes ⟨"app", "tok", false⟩ [Except.ok ⟨403, "Forbidden", ⟨"error", none, none, none⟩⟩]
        (fun _ => 0) 0 = Except.error "Access Forbidden (Check Permissions)" ∧
    fetchQuotes ⟨"app", "tok", false⟩
        [Except.ok ⟨500, "Server Error", ⟨"error", none, none, none⟩⟩] (fun _ => 0) 0 =
      Except.error ("API Error: " ++ toString 500 ++ " " ++ "Server Error") ∧
    fetchQuotes ⟨"app", "tok", false⟩
        [Except.error "Failed to fetch", Except.error "Failed to fetch"] (fun _ => 0) 0 =
      Except.error
        "Network Error: Could not connect to Fyers via Proxy. Please check your internet." := by
  refine ⟨?_, ?_, ?_, ?_⟩
  · exact claim_c3_error_kinds.1 ⟨"app", "tok", false⟩
      [Except.ok ⟨401, "Unauthorized", ⟨"error", none, none, none⟩⟩] (fun _ => 0) 0
      ⟨401, "Unauthorized", ⟨"error", none, none, none⟩⟩ rfl rfl rfl
  · exact claim_c3_error_kinds.2.1 ⟨"app", "tok", false⟩
      [Except.ok ⟨403, "Forbidden", ⟨"error", none, none, none⟩⟩] (fun _ => 0) 0
      ⟨403, "Forbidden", ⟨"error", none, none, none⟩⟩ rfl rfl rfl
  · exact (claim_c3_error_kinds.2.2.1 ⟨"app", "tok", false⟩
      [Except.ok ⟨500, "Server Error", ⟨"error", none, none, none⟩⟩] (fun _ => 0) 0
      ⟨500, "Server Error", ⟨"error", none, none, none⟩⟩ rfl rfl (by decide)
      (by decide) (by decide)).1
  · exact claim_c3_error_kinds.2.2.2.1 ⟨"app", "tok", false⟩ (fun _ => 0) 0
      ["Failed to fetch", "Failed to fetch"] rfl rfl

/-! ## Claim C4 -/

/-- C4 as stated is false on the code: when the malformed envelope's
`message` field is the literal "Failed to fetch", the catch-all wrapper
rewrites the surfaced error to the network-error string, so the error does
not carry the body's `message`. -/
theorem claim_c4_counterexample :
    fetchQuotes ⟨"app", "tok", false⟩
        [Except.ok ⟨200, "OK", ⟨"error", none, none, some "Failed to fetch"⟩⟩]
        (fun _ => 0) 0 =
      Except.error
        "Network Error: Could not connect to Fyers via Proxy. Please check your internet." ∧
    "Network Error: Could not connect to Fyers via Proxy. Please check your internet." ≠
      "Failed to fetch" := by
  exact ⟨rfl, by decide⟩

/-- C4 amended: for every live-mode HTTP-success response whose body has `s`
not equal to "ok" or no `d` field, `poll` fails and never returns records;
the error carries the body's `message` when it is present, non-empty and not
the literal "Failed to fetch"; an absent or empty `message` surfaces the
fallback "Failed to fetch quotes"; a `message` equal to "Failed to fetch" is
rewritten by the catch-all into the network-error string. -/
theorem claim_c4_malformed_envelope :
    ∀ (cfg : FyersConfig) (outcomes : List (Except String (Response FyersResponse)))
      (dr : ℕ → ℚ) (now : ℕ) (r : Response FyersResponse),
      cfg.isDemoMode = false → fetchWithFailover outcomes = Except.ok r →
      respOk r = true → (r.body.s ≠ "ok" ∨ r.body.d = none) →
      (∀ l, fetchQuotes cfg outcomes dr now ≠ Except.ok l) ∧
      (∀ m, r.body.message = some m → m ≠ "" → m ≠ "Failed to fetch" →
        fetchQuotes cfg outcomes dr now = Except.error m) ∧
      (r.body.message = none →
        fetchQuotes cfg outcomes dr now = Except.error "Failed to fetch quotes") ∧
      (r.body.message = some "" →
        fetchQuotes cfg outcomes dr now = Except.error "Failed to fetch quotes") ∧
      (r.body.message = some "Failed to fetch" →
        fetchQuotes cfg outcomes dr now =
          Except.error
            "Network Error: Could not connect to Fyers via Proxy. Please check your internet.") := by
  intro cfg outcomes dr now r hmode hf hok hbad
  have hbase : fetchQuotes cfg outcomes dr now =
      Except.error (wrapFetchError (jsOrString r.body.message "Failed to fetch quotes")) := by
    rw [fetchQuotes_live cfg outcomes dr now hmode,
      fetchQuotesTry_badEnvelope outcomes now r hf hok hbad]
  refine ⟨?_, ?_, ?_, ?_, ?_⟩
  · intro l
    rw [hbase]
    simp
  · intro m hm hne hneftf
    rw [hbase, hm]
    simp [jsOrString, hne, wrapFetchError_id m hneftf hne]
  · intro hm
    rw [hbase, hm]
    simp [jsOrString, wrapFetchError]
  · intro hm
    rw [hbase, hm]
    simp [jsOrString, wrapFetchError]
  · intro hm
    rw [hbase, hm]
    simp [jsOrString, wrapFetchError]

/-- Witness for C4's amended statement at concrete malformed envelopes: a
provider message is carried verbatim, and an absent message surfaces the
fallback. -/
theorem claim_c4_malformed_envelope_witness :
    fetchQuotes ⟨"app", "tok", false⟩
        [Except.ok ⟨200, "OK", ⟨"error", none, none, some "Invalid symbol"⟩⟩]
        (fun _ => 0) 0 = Except.error "Invalid symbol" ∧
    fetchQuotes ⟨"app", "tok", false⟩
        [Except.ok ⟨200, "OK", ⟨"no_data", none, none, none⟩⟩]
        (fun _ => 0) 0 = Except.error "Failed to fetch quotes" := by
  constructor
  · exact (claim_c4_malformed_envelope ⟨"app", "tok", false⟩
      [Except.ok ⟨200, "OK", ⟨"error", none, none, some "Invalid symbol"⟩⟩] (fun _ => 0) 0
      ⟨200, "OK", ⟨"error", none, none, some "Invalid symbol"⟩⟩ rfl rfl rfl
      (Or.inl (by decide))).2.1 "Invalid symbol" rfl (by decide) (by decide)
  · exact (claim_c4_malformed_envelope ⟨"app", "tok", false⟩
      [Except.ok ⟨200, "OK", ⟨"no_data", none, none, none⟩⟩] (fun _ => 0) 0
      ⟨200, "OK", ⟨"no_data", none, none, none⟩⟩ rfl rfl rfl
      (Or.inl (by decide))).2.2.1 rfl

/-! ## Claim C6 -/

/-- Length of a flat map whose pieces all have the same length. -/
theorem flatMap_const_length {α β : Type} (f : α → List β) (k : ℕ)
    (h : ∀ b, (f b).length = k) : ∀ l : List α, (l.flatMap f).length = k * l.length := by
  intro l
  induction l with
  | nil => simp
  | cons x xs ih =>
    simp only [List.flatMap_cons, List.length_append, List.length_cons, h, ih]
    ring

/-- Every big-endian serialisation has the requested width. -/
theorem bytesBE_length (k n : ℕ) : (bytesBE k n).length = k := by
  simp [bytesBE]

/-- A SHA-256 digest always has 32 bytes. -/
theorem sha256Bytes_length (msg : List ℕ) : (sha256Bytes msg).length = 32 := by
  rw [sha256Bytes]
  rw [flatMap_const_length (bytesBE 4) 4 (fun b => bytesBE_length 4 b)]
  rfl

/-- The hex digit table has sixteen entries. -/
theorem hexDigitChars_length : hexDigitChars.length = 16 := by decide

/-- Every value of `hexChar` is one of the sixteen lowercase hex digits. -/
theorem hexChar_mem (n : ℕ) : hexChar n ∈ hexDigitChars := by
  by_cases h : n < 16
  · interval_cases n <;> decide
  · rw [hexChar, List.getD_eq_default]
    · decide
    · rw [hexDigitChars_length]
      omega

/-- Every character of a hex-encoded byte list is a lowercase hex digit. -/
theorem bytesToHexString_chars (bs : List ℕ) (c : Char)
    (h : c ∈ (bytesToHexString bs).data) : c ∈ hexDigitChars := by
  rw [bytesToHexString] at h
  have h2 : c ∈ bs.flatMap byteToHex := h
  rw [List.mem_flatMap] at h2
  obtain ⟨b, _, hc⟩ := h2
  rw [byteToHex, List.mem_cons, List.mem_singleton] at hc
  rcases hc with hc | hc
  · exact hc ▸ hexChar_mem (b / 16 % 16)
  · exact hc ▸ hexChar_mem (b % 16)

/-- C6 as stated is false on the code: "changing either input changes the
output" fails for the distinct input pairs ("X:Y", "Z") and ("X", "Y:Z"),
whose joined strings — and hence digests — coincide. -/
theorem claim_c6_counterexample :
    generateAppIdHash "X:Y" "Z" = generateAppIdHash "X" "Y:Z" ∧
    (("X:Y", "Z") : String × String) ≠ ("X", "Y:Z") := by
  exact ⟨rfl, by decide⟩

set_option maxRecDepth 400000 in
/-- C6 amended: the credential hasher is a pure, deterministic function
returning the 64-character lowercase-hexadecimal SHA-256 digest of the UTF-8
encoding of "applicationId:secretKey"; the output depends on the inputs only
through that joined string (so distinct pairs with equal joined strings
collide), and for the spec's example inputs changing either single input
changes the output. -/
theorem claim_c6_hasher :
    (∀ a b : String, generateAppIdHash a b = sha256Hex (a ++ ":" ++ b)) ∧
    (∀ a b : String, (generateAppIdHash a b).length = 64) ∧
    (∀ (a b : String) (c : Char), c ∈ (generateAppIdHash a b).data → c ∈ hexDigitChars) ∧
    (∀ a b a2 b2 : String, a ++ ":" ++ b = a2 ++ ":" ++ b2 →
       generateAppIdHash a b = generateAppIdHash a2 b2) ∧
    (generateAppIdHash "APP1" "SECRET1" ≠ generateAppIdHash "APP2" "SECRET1" ∧
     generateAppIdHash "APP1" "SECRET1" ≠ generateAppIdHash "APP1" "SECRET2") := by
  refine ⟨fun a b => rfl, ?_, ?_, ?_, by decide, by decide⟩
  · intro a b
    rw [generateAppIdHash, sha256Hex, bytesToHexString]
    show (List.flatMap _ byteToHex).length = 64
    rw [flatMap_const_length byteToHex 2 (fun b2 => rfl), sha256Bytes_length]
  · intro a b c hc
    exact bytesToHexString_chars _ c hc
  · intro a b a2 b2 h
    unfold generateAppIdHash
    rw [h]

/-- Witness for C6's amended statement at the spec's example credentials. -/
theorem claim_c6_hasher_witness :
    (generateAppIdHash "APP1" "SECRET1").length = 64 ∧
    ('x' ∈ (generateAppIdHash "APP1" "SECRET1").data → 'x' ∈ hexDigitChars) ∧
    generateAppIdHash "AP" "P1:SECRET1" = generateAppIdHash "AP:P1" "SECRET1" := by
  refine ⟨claim_c6_hasher.2.1 "APP1" "SECRET1", ?_, ?_⟩
  · exact claim_c6_hasher.2.2.1 "APP1" "SECRET1" 'x'
  · exact claim_c6_hasher.2.2.2.1 "AP" "P1:SECRET1" "AP:P1" "SECRET1" rfl
